import Mathlib

/-!
Verification of the ESP32 TCP audio receiver
(`src/audio_process_server/esp_receiver/esp_audio_reciver.cpp`).

The repository bundles three receiver variants in that file:
 * variant 1 (`tcp_server_loop` at lines 194-426, with `recive_full`,
   `int32_to_24_bytes_little_endian`), the original;
 * variant 2 (`tcp_audio_receiver_server_loop` at lines 631-828, with
   `recv_all`, `int32_left24_to_3bytes_le`), whose file header documents
   the fixes it applies over variant 1;
 * variant 3 (`tcp_server_loop` at lines 1130-1304 of the concatenation),
   a minimal fixed receiver.

Bytes are modelled as `Nat` (values < 256 where produced by the code),
`int32_t` values as `Int` with explicit wrap-around where the C code
casts, and `double` by `ℚ` (every `double` is a rational; all the
concrete computations the claims touch are exact in `double`, so the
rational model agrees with the IEEE one on them).
-/

/- ### Wire / format constants (lines 33-42, 483-496) -/

def HEADER_MAGIC : Nat := 0x45535032

def HEADER_SIZE : Nat := 34

def OUT_BYTES_PER_SAMPLE : Nat := 3

def INT32_MAX : Int := 2147483647

def INT32_MIN : Int := -2147483648

/- ### Little-endian field decoding.

The C code reconstructs multi-byte fields as
`(uint32_t)b0 | (b1<<8) | (b2<<16) | (b3<<24)`; for byte values the
bit-or of disjointly shifted fields is addition, which is how the
reconstruction is written here.  Out-of-range indices default to 0. -/

def parse_u16 (l : List Nat) (off : Nat) : Nat :=
  l.getD off 0 + 256 * l.getD (off + 1) 0

def parse_u32 (l : List Nat) (off : Nat) : Nat :=
  l.getD off 0 + 256 * l.getD (off + 1) 0 + 65536 * l.getD (off + 2) 0 +
    16777216 * l.getD (off + 3) 0

def parse_u64 (l : List Nat) (off : Nat) : Nat :=
  l.getD off 0 + 256 * l.getD (off + 1) 0 + 65536 * l.getD (off + 2) 0 +
    16777216 * l.getD (off + 3) 0 + 4294967296 * l.getD (off + 4) 0 +
    1099511627776 * l.getD (off + 5) 0 + 281474976710656 * l.getD (off + 6) 0 +
    72057594037927936 * l.getD (off + 7) 0

/-- C cast to `int32_t` (two's-complement wrap into `[-2^31, 2^31)`). -/
def toInt32 (n : Int) : Int := (n + 2147483648) % 4294967296 - 2147483648

/-- `le_bytes_to_int32` (lines 608-611): read 4 little-endian bytes as a
`uint32_t` and cast the result to `int32_t`. -/
def le_bytes_to_int32 (l : List Nat) (off : Nat) : Int :=
  toInt32 (parse_u32 l off)

/- ### Sample converter -/

/-- C `std::llround`: round to nearest integer, halves away from zero. -/
def llround (x : ℚ) : Int := if 0 ≤ x then ⌊x + 1/2⌋ else ⌈x - 1/2⌉

/-- `int32_left24_to_3bytes_le` (lines 598-605): arithmetic right shift
by 8 (`>>` on a negative `int32_t` is sign-preserving, i.e. floor
division by 256), cast to `uint32_t`, mask with `0xFFFFFF`, and emit the
three low bytes little-endian. -/
def int32_left24_to_3bytes_le (s : Int) : List Nat :=
  let s24 : Int := Int.fdiv s 256
  let u24 : Nat := (s24 % 4294967296).toNat % 16777216
  [u24 % 256, u24 / 256 % 256, u24 / 65536 % 256]

/-- `int32_to_24_bytes_little_endian` (lines 151-158, variant 1): same
shift, but the mask written there is `0xfffffffu` (28 bits, a typo for
24); only the three low bytes are emitted, so the extra four mask bits
never reach the output. -/
def int32_to_24_bytes_little_endian (s : Int) : List Nat :=
  let s24 : Int := Int.fdiv s 256
  let c : Nat := (s24 % 4294967296).toNat % 268435456
  [c % 256, c / 256 % 256, c / 65536 % 256]

/-- Gain-and-clamp conversion of one sample (lines 781-787 of variant 2;
lines 368-386 of variant 1 and 1258-1269 of variant 3 are the same
computation): widen to `double`, multiply by the gain, clamp into
`[INT32_MIN, INT32_MAX]`, `llround`, cast to `int32_t`, then pack. -/
def convert_sample (s : Int) (gain : ℚ) : List Nat :=
  let scaled : ℚ := (s : ℚ) * gain
  let clamped : ℚ :=
    if scaled > (2147483647 : ℚ) then (2147483647 : ℚ)
    else if scaled < (-2147483648 : ℚ) then (-2147483648 : ℚ)
    else scaled
  int32_left24_to_3bytes_le (toInt32 (llround clamped))

/-- Packing claimed by the spec: `(S >> 8) & 0xFFFFFF` (arithmetic
shift), emitted as 3 little-endian bytes. -/
def spec_shift_mask_pack (s : Int) : List Nat :=
  let m : Nat := (Int.fdiv s 256 % 16777216).toNat
  [m % 256, m / 256 % 256, m / 65536 % 256]

/- ### Converter lemmas -/

lemma llround_intCast (n : Int) : llround ((n : ℚ)) = n := by
  unfold llround
  by_cases h : (0 : ℚ) ≤ (n : ℚ)
  · rw [if_pos h, show ((n : ℚ) + 1/2) = ((n : ℤ) : ℚ) + 1/2 by norm_num,
      Int.floor_int_add]
    norm_num
  · rw [if_neg h, sub_eq_neg_add, Int.ceil_add_int]
    norm_num

lemma toInt32_eq_self {s : Int} (h1 : -2147483648 ≤ s) (h2 : s ≤ 2147483647) :
    toInt32 s = s := by
  unfold toInt32
  omega

lemma convert_sample_gain_one (s : Int) (h1 : -2147483648 ≤ s)
    (h2 : s ≤ 2147483647) : convert_sample s 1 = int32_left24_to_3bytes_le s := by
  unfold convert_sample
  dsimp only
  have hs : ((s : ℚ) * 1) = (s : ℚ) := mul_one _
  have hle : (s : ℚ) ≤ (2147483647 : ℚ) := by exact_mod_cast h2
  have hge : (-2147483648 : ℚ) ≤ (s : ℚ) := by exact_mod_cast h1
  rw [hs, if_neg (not_lt.mpr hle), if_neg (not_lt.mpr hge), llround_intCast,
    toInt32_eq_self h1 h2]

lemma convert_sample_sat_hi (s : Int) (g : ℚ)
    (h : (s : ℚ) * g > (2147483647 : ℚ)) :
    convert_sample s g = int32_left24_to_3bytes_le INT32_MAX := by
  unfold convert_sample
  dsimp only
  rw [if_pos h, show (2147483647 : ℚ) = ((2147483647 : ℤ) : ℚ) by norm_num,
    llround_intCast]
  rw [toInt32_eq_self (by norm_num) (by norm_num)]
  rfl

lemma convert_sample_sat_lo (s : Int) (g : ℚ)
    (h : (s : ℚ) * g < (-2147483648 : ℚ)) :
    convert_sample s g = int32_left24_to_3bytes_le INT32_MIN := by
  unfold convert_sample
  dsimp only
  rw [if_neg (by linarith), if_pos h,
    show (-2147483648 : ℚ) = ((-2147483648 : ℤ) : ℚ) by norm_num,
    llround_intCast]
  rw [toInt32_eq_self (by norm_num) (by norm_num)]
  rfl

lemma int32_left24_eq_spec (s : Int) :
    int32_left24_to_3bytes_le s = spec_shift_mask_pack s := by
  unfold int32_left24_to_3bytes_le spec_shift_mask_pack
  simp only [List.cons.injEq, and_true]
  omega

lemma int32_to_24_eq_spec (s : Int) :
    int32_to_24_bytes_little_endian s = spec_shift_mask_pack s := by
  unfold int32_to_24_bytes_little_endian spec_shift_mask_pack
  simp only [List.cons.injEq, and_true]
  omega

/- ### Packet conversion loops -/

/-- Conversion loop of `tcp_audio_receiver_server_loop` (lines 770-791):
for each of `frames` iterations read the `int32` at byte offset
`frame_index * bytes_per_sample * channels` and emit its 3 converted
bytes (the gain is loaded once per batch). -/
def convert_packet_v2 (gain : ℚ) (frames channels bps : Nat)
    (payload : List Nat) : List Nat :=
  (List.range frames).flatMap fun i =>
    convert_sample (le_bytes_to_int32 payload (i * bps * channels)) gain

/-- Conversion loop of variant 1 (lines 357-388) and variant 3
(lines 1247-1270): identical per-sample arithmetic, but the byte offset
of iteration `i` is `i * 4`, i.e. the i-th `int32` of the payload in
storage order, independent of the declared channel count. -/
def convert_packet_i4 (gain : ℚ) (frames : Nat) (payload : List Nat) :
    List Nat :=
  (List.range frames).flatMap fun i =>
    convert_sample (le_bytes_to_int32 payload (i * 4)) gain

/- ### Variant 1 header field extraction (lines 302-318).

The sequence reconstruction at lines 302-304 uses `header[5]` for both
the `<<8` and the `<<16` contributions (instead of `header[6]`), and the
timestamp loop at lines 314-318 reads `header[8+i]` (the
first-sample-index bytes) instead of `header[16+i]`. -/

def v1_packet_sequence (h : List Nat) : Nat :=
  h.getD 4 0 + 256 * h.getD 5 0 + 65536 * h.getD 5 0 + 16777216 * h.getD 7 0

def v1_universal_timestamp (h : List Nat) : Nat :=
  parse_u64 h 8

/- ### Session loop -/

/-- Read exactly `n` bytes from the connection's remaining byte stream:
succeeds iff the stream still holds `n` bytes (a shorter stream is a
disconnect / short read). -/
def readExact (n : Nat) (s : List Nat) : Option (List Nat × List Nat) :=
  if n ≤ s.length then some (s.take n, s.drop n) else none

lemma readExact_some {n : Nat} {s a b : List Nat}
    (h : readExact n s = some (a, b)) :
    a = s.take n ∧ b = s.drop n ∧ n ≤ s.length := by
  unfold readExact at h
  split at h
  · cases h
    exact ⟨rfl, rfl, by assumption⟩
  · cases h

/-- `payload_bytes` (lines 747-748): `size_t` product
`frames * channels * bytes_per_sample` (wrap-around at `2^64` is written
out even though the factors are far too small to reach it). -/
def payload_bytes_c (frames channels bps : Nat) : Nat :=
  frames * channels * bps % 18446744073709551616

def MAX_FRAMES_LIMIT : Nat := 65536

inductive CodecCheck
  | emptyPayload
  | frameCountOutOfRange
  | ok
deriving DecidableEq

/-- Packet-size validation of `tcp_audio_receiver_server_loop`
(lines 747-759): a zero payload size is skipped first; only then is
`frames_in_packet == 0 || frames_in_packet > MAX_FRAMES_LIMIT` tested,
which aborts the connection. -/
def codec_check (frames channels bps : Nat) : CodecCheck :=
  if payload_bytes_c frames channels bps = 0 then CodecCheck.emptyPayload
  else if frames = 0 ∨ frames > MAX_FRAMES_LIMIT then
    CodecCheck.frameCountOutOfRange
  else CodecCheck.ok

/-- Shared status fields the loop publishes after each packet
(`samples_written` is a C `int`, the other two are atomics). -/
structure Status where
  samples_written : Int
  highest_idx : Nat
  last_seq : Nat

inductive SessionEnd
  | closing
  | aborted
deriving DecidableEq

/-- Per-connection packet loop of `tcp_audio_receiver_server_loop`
(lines 712-811) over the connection's byte stream: read a 34-byte
header (failure: `Closing`); check the magic (mismatch: `Aborted`,
nothing written); validate sizes (empty payload: drop the packet and
continue; frame count out of range: `Aborted`); read the payload
(short read: `Aborted`); convert, append the converted bytes, publish
the status fields, and loop.  Returns the bytes appended to the file,
the final status, and how the session ended. -/
def session_v2 (g : ℚ) (stream : List Nat) (st : Status) :
    List Nat × Status × SessionEnd :=
  match h34 : readExact HEADER_SIZE stream with
  | none => ([], st, SessionEnd.closing)
  | some (hdr, rest) =>
    if parse_u32 hdr 0 ≠ HEADER_MAGIC then ([], st, SessionEnd.aborted)
    else
      match codec_check (parse_u16 hdr 24) (hdr.getD 26 0) (hdr.getD 27 0) with
      | CodecCheck.emptyPayload => session_v2 g rest st
      | CodecCheck.frameCountOutOfRange => ([], st, SessionEnd.aborted)
      | CodecCheck.ok =>
        match hp : readExact
            (payload_bytes_c (parse_u16 hdr 24) (hdr.getD 26 0) (hdr.getD 27 0))
            rest with
        | none => ([], st, SessionEnd.aborted)
        | some (payload, rest2) =>
          let out := convert_packet_v2 g (parse_u16 hdr 24) (hdr.getD 26 0)
            (hdr.getD 27 0) payload
          let st2 : Status :=
            { samples_written := st.samples_written + (parse_u16 hdr 24 : Int),
              highest_idx :=
                (parse_u64 hdr 8 + parse_u16 hdr 24 - 1) % 18446744073709551616,
              last_seq := parse_u32 hdr 4 }
          let r := session_v2 g rest2 st2
          (out ++ r.1, r.2)
termination_by stream.length
decreasing_by
  · obtain ⟨-, hb, hle⟩ := readExact_some h34
    subst hb
    simp only [List.length_drop, HEADER_SIZE] at *
    omega
  · obtain ⟨-, hb, hle⟩ := readExact_some h34
    obtain ⟨-, hb2, hle2⟩ := readExact_some hp
    subst hb hb2
    simp only [List.length_drop, HEADER_SIZE] at *
    omega

/-- Per-connection packet loop of variant 1's `tcp_server_loop`
(lines 281-407): same structure as `session_v2` except that there is no
frame-count guard, the published sequence number uses the variant-1
reconstruction, and — the slip at lines 350-354 — a failed payload read
only logs: the loop still converts the (value-initialised, i.e. zero)
payload buffer, appends it and publishes status, and only the next
header read ends the connection. -/
def session_v1 (g : ℚ) (stream : List Nat) (st : Status) :
    List Nat × Status × SessionEnd :=
  match h34 : readExact HEADER_SIZE stream with
  | none => ([], st, SessionEnd.closing)
  | some (hdr, rest) =>
    if parse_u32 hdr 0 ≠ HEADER_MAGIC then ([], st, SessionEnd.aborted)
    else
      if payload_bytes_c (parse_u16 hdr 24) (hdr.getD 26 0) (hdr.getD 27 0)
          = 0 then
        session_v1 g rest st
      else
        let st2 : Status :=
          { samples_written := st.samples_written + (parse_u16 hdr 24 : Int),
            highest_idx :=
              (parse_u64 hdr 8 + parse_u16 hdr 24 - 1) % 18446744073709551616,
            last_seq := v1_packet_sequence hdr }
        match hp : readExact
            (payload_bytes_c (parse_u16 hdr 24) (hdr.getD 26 0) (hdr.getD 27 0))
            rest with
        | some (payload, rest2) =>
          let out := convert_packet_i4 g (parse_u16 hdr 24) payload
          let r := session_v1 g rest2 st2
          (out ++ r.1, r.2)
        | none =>
          let out := convert_packet_i4 g (parse_u16 hdr 24)
            (List.replicate
              (payload_bytes_c (parse_u16 hdr 24) (hdr.getD 26 0)
                (hdr.getD 27 0)) 0)
          let r := session_v1 g ([] : List Nat) st2
          (out ++ r.1, r.2)
termination_by stream.length
decreasing_by
  · obtain ⟨-, hb, hle⟩ := readExact_some h34
    subst hb
    simp only [List.length_drop, HEADER_SIZE] at *
    omega
  · obtain ⟨-, hb, hle⟩ := readExact_some h34
    obtain ⟨-, hb2, hle2⟩ := readExact_some hp
    subst hb hb2
    simp only [List.length_drop, HEADER_SIZE] at *
    omega
  · obtain ⟨-, hb, hle⟩ := readExact_some h34
    simp only [List.length_nil, HEADER_SIZE] at *
    omega

/-- Accept loop (lines 668-823): one connection at a time; each accepted
connection runs the packet loop on its byte stream (its per-connection
output file collects that session's appended bytes) while the shared
status threads through; a closed or aborted session returns to
`accept`, which serves the next connection. -/
def server_v2 (g : ℚ) : List (List Nat) → Status → List (List Nat) × Status
  | [], st => ([], st)
  | conn :: conns, st =>
    let r := session_v2 g conn st
    let rest := server_v2 g conns r.2.1
    (r.1 :: rest.1, rest.2)

/- ### Container writer -/

/-- `write_u32_le` (lines 515-522): the four bytes `(v >> 8k) & 0xFF`,
least significant first. -/
def u32_le_bytes (v : Nat) : List Nat :=
  [v % 256, v / 256 % 256, v / 65536 % 256, v / 16777216 % 256]

/-- Overwrite `bs.length` bytes of `file` starting at byte offset `off`
(the effect of `fseek(file, off, SEEK_SET)` followed by one `fwrite`). -/
def write_bytes_at (file : List Nat) (off : Nat) (bs : List Nat) : List Nat :=
  file.take off ++ bs ++ file.drop (off + bs.length)

/-- `finalize_wav_header` (lines 583-595): `uint32_t` arithmetic for
`data_bytes = total_samples * channels * OUT_BYTES_PER_SAMPLE` and
`riff_size = 4 + (8 + 16) + (8 + data_bytes)`, then patch `riff_size`
at byte offset 4 and `data_bytes` at byte offset 40. -/
def finalize_wav_header (file : List Nat) (total_samples channels : Nat) :
    List Nat :=
  let data_bytes := total_samples * channels * OUT_BYTES_PER_SAMPLE % 4294967296
  let riff_size := (4 + (8 + 16) + (8 + data_bytes)) % 4294967296
  write_bytes_at (write_bytes_at file 4 (u32_le_bytes riff_size)) 40
    (u32_le_bytes data_bytes)

lemma write_bytes_at_getD (file bs : List Nat) (off i : Nat)
    (h : off + bs.length ≤ file.length) :
    (write_bytes_at file off bs).getD i 0 =
      if off ≤ i ∧ i < off + bs.length then bs.getD (i - off) 0
      else file.getD i 0 := by
  unfold write_bytes_at
  rw [List.append_assoc]
  have hofflen : (file.take off).length = off := by
    simp only [List.length_take]
    omega
  rcases Nat.lt_or_ge i off with hlt | hge
  · rw [List.getD_append _ _ _ _ (by omega), if_neg (by omega)]
    rw [List.getD_eq_getD_get?, List.getD_eq_getD_get?, List.get?_eq_getElem?,
      List.get?_eq_getElem?, List.getElem?_take_of_lt hlt]
  · rw [List.getD_append_right _ _ _ _ (by omega), hofflen]
    rcases Nat.lt_or_ge i (off + bs.length) with hin | hout
    · rw [List.getD_append _ _ _ _ (by omega), if_pos (by omega)]
    · rw [List.getD_append_right _ _ _ _ (by omega), if_neg (by omega)]
      rw [List.getD_eq_getD_get?, List.getD_eq_getD_get?, List.get?_eq_getElem?,
        List.get?_eq_getElem?, List.getElem?_drop]
      have hidx : off + bs.length + (i - off - bs.length) = i := by omega
      rw [hidx]

/- ### Socket-level read-exactly-N operations.

`recv` is modelled by the sequence of results the kernel hands back to
successive calls: a chunk of bytes (`recv > 0`, at most the requested
amount is consumed per call), an `EINTR` interruption, or a socket
error (`recv < 0`, `errno ≠ EINTR`).  When the event list is exhausted
the peer has closed the connection and every further `recv` returns 0. -/

inductive RecvEv
  | data (bs : List Nat)
  | eintr
  | err

inductive RecvOutcome
  | ok (bytes : List Nat)
  | fail
  | hang
deriving DecidableEq

/-- `recv_all` (lines 535-551): loop until `required` bytes are
accumulated; retry on `EINTR`, return `false` on error or when `recv`
returns 0 (peer closed), append each delivered chunk. -/
def recv_all (required : Nat) : List RecvEv → List Nat → RecvOutcome
  | evs, acc =>
    if acc.length ≥ required then RecvOutcome.ok acc
    else
      match evs with
      | [] => RecvOutcome.fail
      | RecvEv.err :: _ => RecvOutcome.fail
      | RecvEv.eintr :: rest => recv_all required rest acc
      | RecvEv.data bs :: rest =>
        recv_all required rest (acc ++ bs.take (required - acc.length))

/-- `recive_full` (lines 63-89, variant 1): the `current_recived_amount
== 0` test and the `total_recived_bytes += current_recived_amount`
accumulation are written inside the `current_recived_amount < 0` branch
after an unconditional `return`, so they are dead code.  A successful
`recv` therefore never advances `total_recived_bytes`: the loop keeps
calling `recv`, and once the stream is exhausted `recv` returns 0
forever and the loop never exits (`hang`).  Only a socket error
(`errno ≠ EINTR`) makes it return `false`. -/
def recive_full (required : Nat) : List RecvEv → List Nat → RecvOutcome
  | evs, acc =>
    if acc.length ≥ required then RecvOutcome.ok acc
    else
      match evs with
      | [] => RecvOutcome.hang
      | RecvEv.err :: _ => RecvOutcome.fail
      | RecvEv.eintr :: rest => recive_full required rest acc
      | RecvEv.data _ :: rest => recive_full required rest acc

/- recv_all correctness lemmas (the behaviour C9 describes). -/

lemma recv_all_ok_length (required : Nat) (evs : List RecvEv)
    (acc : List Nat) (out : List Nat) (hacc : acc.length ≤ required)
    (h : recv_all required evs acc = RecvOutcome.ok out) :
    out.length = required := by
  induction evs generalizing acc with
  | nil =>
    unfold recv_all at h
    split at h
    · cases h
      omega
    · cases h
  | cons ev rest ih =>
    unfold recv_all at h
    split at h
    · cases h
      omega
    · match ev with
      | RecvEv.err => cases h
      | RecvEv.eintr => exact ih acc hacc h
      | RecvEv.data bs =>
        refine ih _ ?_ h
        simp only [List.length_append, List.length_take]
        omega

lemma recv_all_never_hangs (required : Nat) (evs : List RecvEv)
    (acc : List Nat) : recv_all required evs acc ≠ RecvOutcome.hang := by
  induction evs generalizing acc with
  | nil =>
    unfold recv_all
    split
    · simp
    · simp
  | cons ev rest ih =>
    unfold recv_all
    split
    · simp
    · match ev with
      | RecvEv.err => simp
      | RecvEv.eintr => exact ih acc
      | RecvEv.data bs => exact ih _

lemma recv_all_eintr_retries (required : Nat) (evs : List RecvEv)
    (acc : List Nat) (h : acc.length < required) :
    recv_all required (RecvEv.eintr :: evs) acc = recv_all required evs acc := by
  conv_lhs => rw [recv_all]
  rw [if_neg (by omega)]

lemma recv_all_close_fails (required : Nat) (acc : List Nat)
    (h : acc.length < required) :
    recv_all required [] acc = RecvOutcome.fail := by
  conv_lhs => rw [recv_all]
  rw [if_neg (by omega)]

lemma recv_all_err_fails (required : Nat) (evs : List RecvEv)
    (acc : List Nat) (h : acc.length < required) :
    recv_all required (RecvEv.err :: evs) acc = RecvOutcome.fail := by
  conv_lhs => rw [recv_all]
  rw [if_neg (by omega)]

/-- recive_full never succeeds when at least one byte is required: the
accumulator never grows. -/
lemma recive_full_never_ok (required : Nat) (evs : List RecvEv)
    (acc : List Nat) (h : acc.length < required) (out : List Nat) :
    recive_full required evs acc ≠ RecvOutcome.ok out := by
  induction evs generalizing acc with
  | nil =>
    unfold recive_full
    rw [if_neg (by omega)]
    simp
  | cons ev rest ih =>
    unfold recive_full
    rw [if_neg (by omega)]
    match ev with
    | RecvEv.err => simp
    | RecvEv.eintr => exact ih acc h
    | RecvEv.data bs => exact ih acc h

/- ### Unfolding lemmas for the packet loops -/

lemma session_v2_header_fail (g : ℚ) (stream : List Nat) (st : Status)
    (h : readExact HEADER_SIZE stream = none) :
    session_v2 g stream st = ([], st, SessionEnd.closing) := by
  rw [session_v2]
  split
  · rfl
  · simp_all

lemma session_v2_bad_magic (g : ℚ) (stream hdr rest : List Nat) (st : Status)
    (h : readExact HEADER_SIZE stream = some (hdr, rest))
    (hm : parse_u32 hdr 0 ≠ HEADER_MAGIC) :
    session_v2 g stream st = ([], st, SessionEnd.aborted) := by
  rw [session_v2]
  split
  · simp_all
  · rename_i hdr2 rest2 heq
    rw [h] at heq
    obtain ⟨rfl, rfl⟩ : hdr2 = hdr ∧ rest2 = rest := by
      constructor <;> cases heq <;> rfl
    rw [if_pos hm]

lemma session_v2_empty_payload (g : ℚ) (stream hdr rest : List Nat)
    (st : Status) (h : readExact HEADER_SIZE stream = some (hdr, rest))
    (hm : parse_u32 hdr 0 = HEADER_MAGIC)
    (hc : codec_check (parse_u16 hdr 24) (hdr.getD 26 0) (hdr.getD 27 0) =
      CodecCheck.emptyPayload) :
    session_v2 g stream st = session_v2 g rest st := by
  rw [session_v2]
  split
  · simp_all
  · rename_i hdr2 rest2 heq
    rw [h] at heq
    obtain ⟨rfl, rfl⟩ : hdr2 = hdr ∧ rest2 = rest := by
      constructor <;> cases heq <;> rfl
    rw [if_neg (by simp [hm])]
    split <;> simp_all

lemma session_v2_payload_fail (g : ℚ) (stream hdr rest : List Nat)
    (st : Status) (h : readExact HEADER_SIZE stream = some (hdr, rest))
    (hm : parse_u32 hdr 0 = HEADER_MAGIC)
    (hc : codec_check (parse_u16 hdr 24) (hdr.getD 26 0) (hdr.getD 27 0) =
      CodecCheck.ok)
    (hp : readExact
      (payload_bytes_c (parse_u16 hdr 24) (hdr.getD 26 0) (hdr.getD 27 0))
      rest = none) :
    session_v2 g stream st = ([], st, SessionEnd.aborted) := by
  rw [session_v2]
  split
  · simp_all
  · rename_i hdr2 rest2 heq
    rw [h] at heq
    obtain ⟨rfl, rfl⟩ : hdr2 = hdr ∧ rest2 = rest := by
      constructor <;> cases heq <;> rfl
    rw [if_neg (by simp [hm])]
    split
    · simp_all
    · simp_all
    · split
      · rfl
      · simp_all

lemma session_v2_packet (g : ℚ) (stream hdr rest payload rest2 : List Nat)
    (st : Status) (h : readExact HEADER_SIZE stream = some (hdr, rest))
    (hm : parse_u32 hdr 0 = HEADER_MAGIC)
    (hc : codec_check (parse_u16 hdr 24) (hdr.getD 26 0) (hdr.getD 27 0) =
      CodecCheck.ok)
    (hp : readExact
      (payload_bytes_c (parse_u16 hdr 24) (hdr.getD 26 0) (hdr.getD 27 0))
      rest = some (payload, rest2)) :
    session_v2 g stream st =
      (convert_packet_v2 g (parse_u16 hdr 24) (hdr.getD 26 0) (hdr.getD 27 0)
          payload ++
        (session_v2 g rest2
          { samples_written := st.samples_written + (parse_u16 hdr 24 : Int),
            highest_idx :=
              (parse_u64 hdr 8 + parse_u16 hdr 24 - 1) % 18446744073709551616,
            last_seq := parse_u32 hdr 4 }).1,
        (session_v2 g rest2
          { samples_written := st.samples_written + (parse_u16 hdr 24 : Int),
            highest_idx :=
              (parse_u64 hdr 8 + parse_u16 hdr 24 - 1) % 18446744073709551616,
            last_seq := parse_u32 hdr 4 }).2) := by
  rw [session_v2]
  split
  · simp_all
  · rename_i hdr2 rest2x heq
    rw [h] at heq
    obtain ⟨rfl, rfl⟩ : hdr2 = hdr ∧ rest2x = rest := by
      constructor <;> cases heq <;> rfl
    rw [if_neg (by simp [hm])]
    split
    · simp_all
    · simp_all
    · split
      · simp_all
      · rename_i p2 r2 heq2
        rw [hp] at heq2
        obtain ⟨rfl, rfl⟩ : p2 = payload ∧ r2 = rest2 := by
          constructor <;> cases heq2 <;> rfl
        rfl

lemma session_v1_header_fail (g : ℚ) (stream : List Nat) (st : Status)
    (h : readExact HEADER_SIZE stream = none) :
    session_v1 g stream st = ([], st, SessionEnd.closing) := by
  rw [session_v1]
  split
  · rfl
  · simp_all

lemma session_v1_payload_fail (g : ℚ) (stream hdr rest : List Nat)
    (st : Status) (h : readExact HEADER_SIZE stream = some (hdr, rest))
    (hm : parse_u32 hdr 0 = HEADER_MAGIC)
    (hpz : payload_bytes_c (parse_u16 hdr 24) (hdr.getD 26 0) (hdr.getD 27 0)
      ≠ 0)
    (hp : readExact
      (payload_bytes_c (parse_u16 hdr 24) (hdr.getD 26 0) (hdr.getD 27 0))
      rest = none) :
    session_v1 g stream st =
      (convert_packet_i4 g (parse_u16 hdr 24)
          (List.replicate
            (payload_bytes_c (parse_u16 hdr 24) (hdr.getD 26 0)
              (hdr.getD 27 0)) 0) ++
        (session_v1 g ([] : List Nat)
          { samples_written := st.samples_written + (parse_u16 hdr 24 : Int),
            highest_idx :=
              (parse_u64 hdr 8 + parse_u16 hdr 24 - 1) % 18446744073709551616,
            last_seq := v1_packet_sequence hdr }).1,
        (session_v1 g ([] : List Nat)
          { samples_written := st.samples_written + (parse_u16 hdr 24 : Int),
            highest_idx :=
              (parse_u64 hdr 8 + parse_u16 hdr 24 - 1) % 18446744073709551616,
            last_seq := v1_packet_sequence hdr }).2) := by
  rw [session_v1]
  split
  · simp_all
  · rename_i hdr2 rest2 heq
    rw [h] at heq
    obtain ⟨rfl, rfl⟩ : hdr2 = hdr ∧ rest2 = rest := by
      constructor <;> cases heq <;> rfl
    rw [if_neg (by simp [hm]), if_neg hpz]
    dsimp only
    split
    · simp_all
    · rfl

-- CLAIMS-SECTION

/- ### Container-writer lemmas -/

lemma write_bytes_at_length (file bs : List Nat) (off : Nat)
    (h : off + bs.length ≤ file.length) :
    (write_bytes_at file off bs).length = file.length := by
  unfold write_bytes_at
  simp only [List.length_append, List.length_take, List.length_drop]
  omega

lemma length_u32_le_bytes (v : Nat) : (u32_le_bytes v).length = 4 := rfl

lemma finalize_wav_header_getD (file : List Nat) (ts ch i : Nat)
    (hlen : 44 ≤ file.length) :
    (finalize_wav_header file ts ch).getD i 0 =
      if 40 ≤ i ∧ i < 44 then
        (u32_le_bytes (ts * ch * OUT_BYTES_PER_SAMPLE % 4294967296)).getD
          (i - 40) 0
      else if 4 ≤ i ∧ i < 8 then
        (u32_le_bytes ((4 + (8 + 16) +
          (8 + ts * ch * OUT_BYTES_PER_SAMPLE % 4294967296)) %
            4294967296)).getD (i - 4) 0
      else file.getD i 0 := by
  unfold finalize_wav_header
  dsimp only
  have hlen1 : 4 + (u32_le_bytes ((4 + (8 + 16) +
      (8 + ts * ch * OUT_BYTES_PER_SAMPLE % 4294967296)) % 4294967296)).length
      ≤ file.length := by
    rw [length_u32_le_bytes]
    omega
  have hlen2 : 40 + (u32_le_bytes
      (ts * ch * OUT_BYTES_PER_SAMPLE % 4294967296)).length ≤
      (write_bytes_at file 4 (u32_le_bytes ((4 + (8 + 16) +
        (8 + ts * ch * OUT_BYTES_PER_SAMPLE % 4294967296)) %
          4294967296))).length := by
    rw [write_bytes_at_length _ _ _ hlen1, length_u32_le_bytes]
    omega
  rw [write_bytes_at_getD _ _ _ _ hlen2, write_bytes_at_getD _ _ _ _ hlen1]
  simp only [length_u32_le_bytes]

lemma u32_le_bytes_getD0 (v : Nat) : (u32_le_bytes v).getD 0 0 = v % 256 := rfl

lemma u32_le_bytes_getD1 (v : Nat) :
    (u32_le_bytes v).getD 1 0 = v / 256 % 256 := rfl

lemma u32_le_bytes_getD2 (v : Nat) :
    (u32_le_bytes v).getD 2 0 = v / 65536 % 256 := rfl

lemma u32_le_bytes_getD3 (v : Nat) :
    (u32_le_bytes v).getD 3 0 = v / 16777216 % 256 := rfl

lemma le_bytes_sum_u32 (v : Nat) (hv : v < 4294967296) :
    v % 256 + 256 * (v / 256 % 256) + 65536 * (v / 65536 % 256) +
      16777216 * (v / 16777216 % 256) = v := by
  have h1 : v / 256 / 256 = v / 65536 := by
    rw [Nat.div_div_eq_div_mul]
  have h2 : v / 65536 / 256 = v / 16777216 := by
    rw [Nat.div_div_eq_div_mul]
  omega

/- ### Claim theorems -/

/-- C1: for every 32-bit signed input sample `S`, converting `S` with
gain `1.0` (no clamping occurs) produces exactly the 3 bytes of
`(S >> 8) & 0xFFFFFF` packed little-endian, with an arithmetic
(sign-preserving) shift; the full gain pipeline and both standalone
packers all agree on it. -/
theorem C1_gain_one_roundtrip (s : Int) (h1 : -2147483648 ≤ s)
    (h2 : s ≤ 2147483647) :
    convert_sample s 1 = spec_shift_mask_pack s ∧
    int32_left24_to_3bytes_le s = spec_shift_mask_pack s ∧
    int32_to_24_bytes_little_endian s = spec_shift_mask_pack s :=
  ⟨(convert_sample_gain_one s h1 h2).trans (int32_left24_eq_spec s),
    int32_left24_eq_spec s, int32_to_24_eq_spec s⟩

/-- Witness for C1 at the negative sample `-2` (whose arithmetic shift
must give `-1`, packed as `FF FF FF`). -/
theorem C1_gain_one_roundtrip_witness :
    (-2147483648 ≤ (-2 : Int)) ∧ ((-2 : Int) ≤ 2147483647) ∧
    convert_sample (-2) 1 = spec_shift_mask_pack (-2) ∧
    spec_shift_mask_pack (-2) = [255, 255, 255] :=
  ⟨by norm_num, by norm_num,
    (C1_gain_one_roundtrip (-2) (by norm_num) (by norm_num)).1, by decide⟩

/-- C2: whenever the widened sample/gain product exceeds `INT32_MAX`
(resp. falls below `INT32_MIN`) the converter saturates it to the bound
before rounding and shifting, so the output is the packing of
`INT32_MAX >> 8` (resp. `INT32_MIN >> 8`); in particular sample
`0x7FFFFFFF` at gain `2.0` yields the little-endian packing
`FF FF 7F` of `INT32_MAX >> 8`. -/
theorem C2_clamp_saturates :
    (∀ (s : Int) (g : ℚ),
      ((s : ℚ) * g > (2147483647 : ℚ) →
        convert_sample s g = int32_left24_to_3bytes_le INT32_MAX) ∧
      ((s : ℚ) * g < (-2147483648 : ℚ) →
        convert_sample s g = int32_left24_to_3bytes_le INT32_MIN)) ∧
    convert_sample 2147483647 2 = int32_left24_to_3bytes_le INT32_MAX ∧
    int32_left24_to_3bytes_le INT32_MAX = [255, 255, 127] :=
  ⟨fun s g => ⟨convert_sample_sat_hi s g, convert_sample_sat_lo s g⟩,
    convert_sample_sat_hi 2147483647 2 (by norm_num), by decide⟩

/-- Witness for C2: both saturation hypotheses discharged at concrete
inputs (`0x7FFFFFFF` at gain `2.0`, `INT32_MIN` at gain `2.0`). -/
theorem C2_clamp_saturates_witness :
    (((2147483647 : Int) : ℚ) * 2 > (2147483647 : ℚ)) ∧
    convert_sample 2147483647 2 = int32_left24_to_3bytes_le INT32_MAX ∧
    (((-2147483648 : Int) : ℚ) * 2 < (-2147483648 : ℚ)) ∧
    convert_sample (-2147483648) 2 = int32_left24_to_3bytes_le INT32_MIN :=
  ⟨by norm_num, (C2_clamp_saturates.1 2147483647 2).1 (by norm_num),
    by norm_num, (C2_clamp_saturates.1 (-2147483648) 2).2 (by norm_num)⟩

/-- C3: finalizing after `N` total samples (the `main` call site passes
`channels = 1`) patches exactly two header fields: the 32-bit
little-endian value at byte offset 4 becomes `4 + (8+16) + (8 + N*3)`,
the one at byte offset 40 becomes `N*3`, and every byte outside those
two 4-byte fields is unchanged. -/
theorem C3_finalize_patches_two_fields (file : List Nat) (N : Nat)
    (hlen : 44 ≤ file.length) (hN : 36 + 3 * N < 4294967296) :
    parse_u32 (finalize_wav_header file N 1) 4 = 4 + (8 + 16) + (8 + N * 3) ∧
    parse_u32 (finalize_wav_header file N 1) 40 = N * 3 ∧
    ∀ i, i < 4 ∨ (8 ≤ i ∧ i < 40) ∨ 44 ≤ i →
      (finalize_wav_header file N 1).getD i 0 = file.getD i 0 := by
  have hd : N * 1 * OUT_BYTES_PER_SAMPLE % 4294967296 = 3 * N := by
    unfold OUT_BYTES_PER_SAMPLE
    omega
  have hr : (4 + (8 + 16) + (8 + N * 1 * OUT_BYTES_PER_SAMPLE % 4294967296)) %
      4294967296 = 36 + 3 * N := by
    unfold OUT_BYTES_PER_SAMPLE
    omega
  have e4 := finalize_wav_header_getD file N 1 4 hlen
  have e5 := finalize_wav_header_getD file N 1 (4 + 1) hlen
  have e6 := finalize_wav_header_getD file N 1 (4 + 1 + 1) hlen
  have e7 := finalize_wav_header_getD file N 1 (4 + 1 + 1 + 1) hlen
  have e40 := finalize_wav_header_getD file N 1 40 hlen
  have e41 := finalize_wav_header_getD file N 1 (40 + 1) hlen
  have e42 := finalize_wav_header_getD file N 1 (40 + 1 + 1) hlen
  have e43 := finalize_wav_header_getD file N 1 (40 + 1 + 1 + 1) hlen
  rw [hr, if_neg (by omega), if_pos (by omega),
    show (4 : Nat) - 4 = 0 from rfl, u32_le_bytes_getD0] at e4
  rw [hr, if_neg (by omega), if_pos (by omega),
    show (4 + 1 : Nat) - 4 = 1 from rfl, u32_le_bytes_getD1] at e5
  rw [hr, if_neg (by omega), if_pos (by omega),
    show (4 + 1 + 1 : Nat) - 4 = 2 from rfl, u32_le_bytes_getD2] at e6
  rw [hr, if_neg (by omega), if_pos (by omega),
    show (4 + 1 + 1 + 1 : Nat) - 4 = 3 from rfl, u32_le_bytes_getD3] at e7
  rw [hd, if_pos (by omega), show (40 : Nat) - 40 = 0 from rfl,
    u32_le_bytes_getD0] at e40
  rw [hd, if_pos (by omega), show (40 + 1 : Nat) - 40 = 1 from rfl,
    u32_le_bytes_getD1] at e41
  rw [hd, if_pos (by omega), show (40 + 1 + 1 : Nat) - 40 = 2 from rfl,
    u32_le_bytes_getD2] at e42
  rw [hd, if_pos (by omega), show (40 + 1 + 1 + 1 : Nat) - 40 = 3 from rfl,
    u32_le_bytes_getD3] at e43
  refine ⟨?_, ?_, ?_⟩
  · unfold parse_u32
    rw [e4, e5, e6, e7, le_bytes_sum_u32 _ (by omega)]
    omega
  · unfold parse_u32
    rw [e40, e41, e42, e43, le_bytes_sum_u32 _ (by omega)]
    omega
  · intro i hi
    rw [finalize_wav_header_getD _ _ _ _ hlen, if_neg (by omega),
      if_neg (by omega)]

/-- Witness for C3 at `N = 2` on a 44-byte all-zero placeholder file:
offset 4 reads `42`, offset 40 reads `6`, offset 0 is untouched. -/
theorem C3_finalize_patches_two_fields_witness :
    (44 ≤ (List.replicate 44 0).length) ∧ (36 + 3 * 2 < 4294967296) ∧
    parse_u32 (finalize_wav_header (List.replicate 44 0) 2 1) 4 =
      4 + (8 + 16) + (8 + 2 * 3) ∧
    parse_u32 (finalize_wav_header (List.replicate 44 0) 2 1) 40 = 2 * 3 ∧
    (finalize_wav_header (List.replicate 44 0) 2 1).getD 0 0 =
      (List.replicate 44 0).getD 0 0 :=
  ⟨by decide, by decide,
    (C3_finalize_patches_two_fields (List.replicate 44 0) 2 (by decide)
      (by decide)).1,
    (C3_finalize_patches_two_fields (List.replicate 44 0) 2 (by decide)
      (by decide)).2.1,
    (C3_finalize_patches_two_fields (List.replicate 44 0) 2 (by decide)
      (by decide)).2.2 0 (by omega)⟩

/-- C4: a 34-byte header whose first four little-endian bytes do not
decode to the magic `0x45535032` makes the session abort with no bytes
written to the file and no status change, and the accept loop then
serves the remaining connections exactly as it would have. -/
theorem C4_bad_magic_aborts_listener_continues (g : ℚ) (conn : List Nat)
    (conns : List (List Nat)) (st : Status)
    (hlen : HEADER_SIZE ≤ conn.length)
    (hm : parse_u32 (conn.take HEADER_SIZE) 0 ≠ HEADER_MAGIC) :
    session_v2 g conn st = ([], st, SessionEnd.aborted) ∧
    server_v2 g (conn :: conns) st =
      (([] : List Nat) :: (server_v2 g conns st).1, (server_v2 g conns st).2)
    := by
  have hread : readExact HEADER_SIZE conn =
      some (conn.take HEADER_SIZE, conn.drop HEADER_SIZE) := by
    unfold readExact
    rw [if_pos hlen]
  have hs := session_v2_bad_magic g conn _ _ st hread hm
  refine ⟨hs, ?_⟩
  simp only [server_v2, hs]

/-- Witness for C4: an all-zero 34-byte header (magic decodes to 0) on
the first connection, followed by one further (empty) connection. -/
theorem C4_bad_magic_witness :
    (HEADER_SIZE ≤ (List.replicate 34 0).length) ∧
    (parse_u32 ((List.replicate 34 0).take HEADER_SIZE) 0 ≠ HEADER_MAGIC) ∧
    session_v2 1 (List.replicate 34 0) ⟨0, 0, 0⟩ =
      ([], ⟨0, 0, 0⟩, SessionEnd.aborted) ∧
    server_v2 1 [List.replicate 34 0, []] ⟨0, 0, 0⟩ =
      (([] : List Nat) :: (server_v2 1 [[]] ⟨0, 0, 0⟩).1,
        (server_v2 1 [[]] ⟨0, 0, 0⟩).2) :=
  ⟨by decide, by decide,
    (C4_bad_magic_aborts_listener_continues 1 (List.replicate 34 0) [[]]
      ⟨0, 0, 0⟩ (by decide) (by decide)).1,
    (C4_bad_magic_aborts_listener_continues 1 (List.replicate 34 0) [[]]
      ⟨0, 0, 0⟩ (by decide) (by decide)).2⟩

/- ### C5: header field offsets -/

/-- A header with magic `ESP2` and distinct bytes in positions 4..23, so
that the three mid-header fields are telling. -/
def c5hdr : List Nat :=
  [50, 80, 83, 69, 1, 2, 3, 4, 5, 6, 7, 8, 9, 10, 11, 12,
   13, 14, 15, 16, 17, 18, 19, 20, 0, 0, 0, 0, 0, 0, 0, 0, 0, 0]

/-- C5 evaluated on the code: variant 2 reads the sequence from bytes
4-7, the first-sample index from bytes 8-15 and the timestamp from bytes
16-23 as the claim states, but variant 1's `tcp_server_loop` builds the
sequence from bytes 4, 5, 5, 7 (`header[5]` is used for both the `<<8`
and `<<16` terms) and reads the timestamp from bytes 8-15, so on this
header it returns 67240449 instead of 67305985 for the sequence and
returns the first-sample-index value as the timestamp. -/
theorem C5_v1_misparses_sequence_and_timestamp :
    parse_u32 c5hdr 0 = HEADER_MAGIC ∧
    v1_packet_sequence c5hdr = 67240449 ∧
    parse_u32 c5hdr 4 = 67305985 ∧
    v1_packet_sequence c5hdr ≠ parse_u32 c5hdr 4 ∧
    v1_universal_timestamp c5hdr = parse_u64 c5hdr 8 ∧
    parse_u64 c5hdr 8 ≠ parse_u64 c5hdr 16 := by
  refine ⟨?_, ?_, ?_, ?_, ?_, ?_⟩ <;> decide

/- ### C6: short payload read -/

/-- A connection stream holding one valid header declaring 1 frame,
1 channel, 4 bytes per sample — and then nothing: the 4 payload bytes
never arrive. -/
def c6stream : List Nat :=
  [50, 80, 83, 69, 0, 0, 0, 0, 0, 0, 0, 0, 0, 0, 0, 0,
   0, 0, 0, 0, 0, 0, 0, 0, 1, 0, 1, 4, 0, 0, 0, 0, 0, 0]

/-- C6 evaluated on variant 1's code: after the payload read fails the
loop only logs, then converts the value-initialised (all-zero) buffer,
appends its 3 bytes to the file, publishes the status fields
(`samples_written` becomes 1), and proceeds to the next header read,
which ends the connection as a plain disconnect (`closing`) — not as
`Aborted` and not without appending. -/
theorem C6_v1_short_payload_still_appends :
    session_v1 1 c6stream ⟨0, 0, 0⟩ =
      ([0, 0, 0], ⟨1, 0, 0⟩, SessionEnd.closing) ∧
    ([0, 0, 0] : List Nat) ≠ [] ∧
    SessionEnd.closing ≠ SessionEnd.aborted := by
  refine ⟨?_, by decide, by decide⟩
  have hread : readExact HEADER_SIZE c6stream =
      some (c6stream.take HEADER_SIZE, c6stream.drop HEADER_SIZE) := by
    unfold readExact
    rw [if_pos (by decide)]
  rw [session_v1_payload_fail 1 c6stream _ _ ⟨0, 0, 0⟩ hread (by decide)
    (by decide) (by decide)]
  rw [session_v1_header_fail 1 ([] : List Nat) _ (by decide)]
  show (convert_packet_i4 1 1 (List.replicate 4 0) ++ [],
    ({ samples_written := 1, highest_idx := 0, last_seq := 0 } : Status),
    SessionEnd.closing) = _
  have hconv : convert_packet_i4 1 1 (List.replicate 4 0) = [0, 0, 0] := by
    unfold convert_packet_i4
    rw [show List.range 1 = [0] from rfl]
    simp only [List.flatMap_cons, List.flatMap_nil, List.append_nil]
    rw [show le_bytes_to_int32 (List.replicate 4 0) (0 * 4) = 0 from by decide,
      convert_sample_gain_one 0 (by norm_num) (by norm_num)]
    decide
  rw [hconv]
  rfl

/-- Variant 2, for contrast, aborts a session whose payload read comes
up short, appending nothing and leaving the status untouched. -/
lemma session_v2_short_payload_aborts (g : ℚ) (stream : List Nat)
    (st : Status) (hlen : HEADER_SIZE ≤ stream.length)
    (hm : parse_u32 (stream.take HEADER_SIZE) 0 = HEADER_MAGIC)
    (hc : codec_check (parse_u16 (stream.take HEADER_SIZE) 24)
      ((stream.take HEADER_SIZE).getD 26 0)
      ((stream.take HEADER_SIZE).getD 27 0) = CodecCheck.ok)
    (hshort : stream.length - HEADER_SIZE <
      payload_bytes_c (parse_u16 (stream.take HEADER_SIZE) 24)
        ((stream.take HEADER_SIZE).getD 26 0)
        ((stream.take HEADER_SIZE).getD 27 0)) :
    session_v2 g stream st = ([], st, SessionEnd.aborted) := by
  have hread : readExact HEADER_SIZE stream =
      some (stream.take HEADER_SIZE, stream.drop HEADER_SIZE) := by
    unfold readExact
    rw [if_pos hlen]
  apply session_v2_payload_fail g stream _ _ st hread hm hc
  unfold readExact
  rw [if_neg]
  simp only [List.length_drop]
  omega

/- ### C7: payload size and empty-payload drop -/

/-- C7: the computed payload size is exactly
`frames × channels × bytes_per_sample` for every representable header
field combination (`frames` is a `uint16_t`, the other two `uint8_t`),
and a packet whose payload size is zero is dropped: the session reads
no payload bytes, appends nothing, leaves every status counter
untouched and continues with the next header. -/
theorem C7_empty_payload_dropped (g : ℚ) (stream : List Nat) (st : Status)
    (hlen : HEADER_SIZE ≤ stream.length)
    (hm : parse_u32 (stream.take HEADER_SIZE) 0 = HEADER_MAGIC)
    (hz : payload_bytes_c (parse_u16 (stream.take HEADER_SIZE) 24)
      ((stream.take HEADER_SIZE).getD 26 0)
      ((stream.take HEADER_SIZE).getD 27 0) = 0) :
    (∀ frames channels bps : Nat, frames < 65536 → channels < 256 →
      bps < 256 →
      payload_bytes_c frames channels bps = frames * channels * bps) ∧
    session_v2 g stream st = session_v2 g (stream.drop HEADER_SIZE) st := by
  constructor
  · intro f c b hf hc hb
    have h1 : f * c ≤ 65535 * 255 := Nat.mul_le_mul (by omega) (by omega)
    have h2 : f * c * b ≤ 65535 * 255 * 255 := Nat.mul_le_mul h1 (by omega)
    unfold payload_bytes_c
    omega
  · have hread : readExact HEADER_SIZE stream =
        some (stream.take HEADER_SIZE, stream.drop HEADER_SIZE) := by
      unfold readExact
      rw [if_pos hlen]
    refine session_v2_empty_payload g stream _ _ st hread hm ?_
    unfold codec_check
    rw [if_pos hz]

/-- Valid-magic header declaring zero frames: payload size is zero. -/
def c7stream : List Nat :=
  [50, 80, 83, 69] ++ List.replicate 30 0

/-- Witness for C7 on a zero-frame header: the session continues at the
next header with the same status, and the size formula is exact at
`2 × 1 × 4`. -/
theorem C7_empty_payload_dropped_witness :
    (HEADER_SIZE ≤ c7stream.length) ∧
    parse_u32 (c7stream.take HEADER_SIZE) 0 = HEADER_MAGIC ∧
    payload_bytes_c (parse_u16 (c7stream.take HEADER_SIZE) 24)
      ((c7stream.take HEADER_SIZE).getD 26 0)
      ((c7stream.take HEADER_SIZE).getD 27 0) = 0 ∧
    payload_bytes_c 2 1 4 = 2 * 1 * 4 ∧
    session_v2 1 c7stream ⟨0, 0, 0⟩ =
      session_v2 1 (c7stream.drop HEADER_SIZE) ⟨0, 0, 0⟩ :=
  ⟨by decide, by decide, by decide,
    (C7_empty_payload_dropped 1 c7stream ⟨0, 0, 0⟩ (by decide) (by decide)
      (by decide)).1 2 1 4 (by decide) (by decide) (by decide),
    (C7_empty_payload_dropped 1 c7stream ⟨0, 0, 0⟩ (by decide) (by decide)
      (by decide)).2⟩

/- ### C8: the frame-count guard -/

lemma codec_check_ne_frame_out_of_range (frames channels bps : Nat)
    (hf : frames < 65536) :
    codec_check frames channels bps ≠ CodecCheck.frameCountOutOfRange := by
  unfold codec_check
  by_cases hz : payload_bytes_c frames channels bps = 0
  · rw [if_pos hz]
    simp
  · rw [if_neg hz]
    have hfz : ¬ (frames = 0 ∨ frames > MAX_FRAMES_LIMIT) := by
      rintro (rfl | hbig)
      · apply hz
        unfold payload_bytes_c
        simp
      · unfold MAX_FRAMES_LIMIT at hbig
        omega
    rw [if_neg hfz]
    simp

/-- C8 is false as stated: there is no frame-count value the decoder
rejects as out of range.  `frames` is a `uint16_t` (at most 65535), the
bound `MAX_FRAMES_LIMIT` is 65536, and `frames == 0` forces a zero
payload size, which the earlier empty-payload check already turned into
a packet drop — so the `FrameCountOutOfRange` abort branch is
unreachable. -/
theorem C8_counterexample :
    ¬ ∃ frames channels bps : Nat, frames < 65536 ∧
      codec_check frames channels bps = CodecCheck.frameCountOutOfRange := by
  rintro ⟨f, c, b, hf, hc⟩
  exact codec_check_ne_frame_out_of_range f c b hf hc

/-- C8 amended: the size validation of a parsed header never reports
`FrameCountOutOfRange` for any representable `uint16_t` frame count —
every header either drops as an empty payload or passes. -/
theorem C8_no_frame_count_rejected (frames channels bps : Nat)
    (hf : frames < 65536) :
    codec_check frames channels bps = CodecCheck.emptyPayload ∨
    codec_check frames channels bps = CodecCheck.ok := by
  cases hcc : codec_check frames channels bps
  · exact Or.inl rfl
  · exact absurd hcc (codec_check_ne_frame_out_of_range frames channels bps hf)
  · exact Or.inr rfl

/-- Witness for the amended C8 at a typical header (1024 frames, mono,
4 bytes per sample). -/
theorem C8_no_frame_count_rejected_witness :
    (1024 < 65536) ∧
    (codec_check 1024 1 4 = CodecCheck.emptyPayload ∨
      codec_check 1024 1 4 = CodecCheck.ok) :=
  ⟨by decide, C8_no_frame_count_rejected 1024 1 4 (by decide)⟩

/- ### C9: the read-exactly-N operations -/

/-- C9 evaluated on the code: on a stream that delivers all 34 requested
bytes in one chunk and then closes, variant 1's `recive_full` loops
forever (its byte accounting is dead code), while `recv_all` — the
fixed read used by the other variants — returns success with exactly
those 34 bytes; and on an immediate socket error `recive_full` does
return failure. -/
theorem C9_recive_full_never_terminates :
    recive_full 34 [RecvEv.data (List.replicate 34 7)] [] =
      RecvOutcome.hang ∧
    recv_all 34 [RecvEv.data (List.replicate 34 7)] [] =
      RecvOutcome.ok (List.replicate 34 7) ∧
    recive_full 34 [RecvEv.err] [] = RecvOutcome.fail := by
  refine ⟨by decide, by decide, by decide⟩

/- ### C10: frames × 3 bytes, channel handling -/

lemma convert_sample_length (s : Int) (g : ℚ) :
    (convert_sample s g).length = 3 := rfl

lemma flatMap_length_three {α : Type} (l : List α) (f : α → List Nat)
    (h : ∀ a, (f a).length = 3) : (l.flatMap f).length = l.length * 3 := by
  induction l with
  | nil => rfl
  | cons a t ih =>
    rw [List.flatMap_cons, List.length_append, h, ih, List.length_cons]
    ring

/-- C10 amended: every processed packet appends exactly
`frames × OUT_BYTES_PER_SAMPLE` bytes whatever the declared channel
count, in both conversion loops; `tcp_audio_receiver_server_loop`
converts the sample at byte offset `i × (bytes_per_sample × channels)`
— the first channel of frame `i` — while the `i * 4` loops of variants
1 and 3 convert the first `frames` payload samples in storage order,
which coincides with the per-frame first-channel choice exactly in the
mono 4-byte case. -/
theorem C10_frames_times_three_appended (g : ℚ)
    (frames channels bps : Nat) (payload : List Nat) :
    (convert_packet_v2 g frames channels bps payload).length =
      frames * OUT_BYTES_PER_SAMPLE ∧
    (convert_packet_i4 g frames payload).length =
      frames * OUT_BYTES_PER_SAMPLE ∧
    convert_packet_v2 g frames channels bps payload =
      ((List.range frames).flatMap fun i =>
        convert_sample (le_bytes_to_int32 payload (i * (bps * channels)))
          g) ∧
    (channels = 1 → bps = 4 →
      convert_packet_i4 g frames payload =
        convert_packet_v2 g frames channels bps payload) := by
  refine ⟨?_, ?_, ?_, ?_⟩
  · unfold convert_packet_v2 OUT_BYTES_PER_SAMPLE
    rw [flatMap_length_three _ _ (fun i => convert_sample_length _ _),
      List.length_range]
  · unfold convert_packet_i4 OUT_BYTES_PER_SAMPLE
    rw [flatMap_length_three _ _ (fun i => convert_sample_length _ _),
      List.length_range]
  · unfold convert_packet_v2
    simp only [Nat.mul_assoc]
  · rintro rfl rfl
    unfold convert_packet_i4 convert_packet_v2
    simp only [Nat.mul_one]

/-- Witness for C10 (amended) in the mono 4-byte case, frames = 2. -/
theorem C10_frames_times_three_appended_witness :
    (convert_packet_v2 1 2 1 4 (List.replicate 8 0)).length =
      2 * OUT_BYTES_PER_SAMPLE ∧
    convert_packet_i4 1 2 (List.replicate 8 0) =
      convert_packet_v2 1 2 1 4 (List.replicate 8 0) :=
  ⟨(C10_frames_times_three_appended 1 2 1 4 (List.replicate 8 0)).1,
    (C10_frames_times_three_appended 1 2 1 4 (List.replicate 8 0)).2.2.2
      rfl rfl⟩

/-- A 2-frame, 2-channel payload: frame 0 holds samples `0x10000`
(channel 0) and `0x20000` (channel 1); frame 1 holds `0x30000` and
`0x40000`. -/
def c10payload : List Nat :=
  [0, 0, 1, 0, 0, 0, 2, 0, 0, 0, 3, 0, 0, 0, 4, 0]

/-- C10 as stated is false for the `i * 4` loops: on a 2-channel packet
variant 3's loop converts samples `0x10000` and `0x20000` — frame 0's
channel-1 sample instead of frame 1's channel-0 sample `0x30000` — so
it does not convert only the first channel of each frame. -/
theorem C10_counterexample :
    convert_packet_i4 1 2 c10payload = [0, 1, 0, 0, 2, 0] ∧
    convert_packet_v2 1 2 2 4 c10payload = [0, 1, 0, 0, 3, 0] ∧
    convert_packet_i4 1 2 c10payload ≠
      convert_packet_v2 1 2 2 4 c10payload := by
  have h1 : convert_packet_i4 1 2 c10payload = [0, 1, 0, 0, 2, 0] := by
    unfold convert_packet_i4
    rw [show List.range 2 = [0, 1] from rfl]
    simp only [List.flatMap_cons, List.flatMap_nil, List.append_nil]
    rw [show le_bytes_to_int32 c10payload (0 * 4) = 65536 from by decide,
      show le_bytes_to_int32 c10payload (1 * 4) = 131072 from by decide,
      convert_sample_gain_one 65536 (by norm_num) (by norm_num),
      convert_sample_gain_one 131072 (by norm_num) (by norm_num)]
    decide
  have h2 : convert_packet_v2 1 2 2 4 c10payload = [0, 1, 0, 0, 3, 0] := by
    unfold convert_packet_v2
    rw [show List.range 2 = [0, 1] from rfl]
    simp only [List.flatMap_cons, List.flatMap_nil, List.append_nil]
    rw [show le_bytes_to_int32 c10payload (0 * 4 * 2) = 65536 from by decide,
      show le_bytes_to_int32 c10payload (1 * 4 * 2) = 196608 from by decide,
      convert_sample_gain_one 65536 (by norm_num) (by norm_num),
      convert_sample_gain_one 196608 (by norm_num) (by norm_num)]
    decide
  refine ⟨h1, h2, ?_⟩
  rw [h1, h2]
  decide
